import Mathlib

/-
Verification of the eligibility-gating and batch-orchestration core of the
email_generator repository.

The Python sources are shallowly embedded as executable Lean definitions:
dictionaries with optional keys become structures with `Option` fields,
Python truthiness of strings is modelled explicitly, machine floats
(`engagement_score`) are modelled as exact rationals, and the two external
collaborators (the dateutil parser and the text-generation service) are
parameters of the functions that call them, following the interface
contracts stated at the collaborator boundary.
-/

/-
Python string helpers.  The Python functions `str.lower` / `str.strip` / `str.title`
are modelled on their ASCII behaviour (all strings appearing in the
repository data and code are ASCII apart from emoji, which none of these
functions alter in a way the claims depend on).
-/

/-- Model of Python `str(x)` for a value read with `dict.get` that may be
`None`: `str(None)` is the string `None`. -/
def pyStr (o : Option String) : String := o.getD "None"

/-- Python truthiness of an optional string: `None` and the empty string
are falsy, every other string is truthy. -/
def truthyOptStr : Option String → Bool
  | some s => s ≠ ""
  | none => false

/-- ASCII lower-casing of one character. -/
def pyCharLower (c : Char) : Char :=
  if 65 ≤ c.toNat ∧ c.toNat ≤ 90 then Char.ofNat (c.toNat + 32) else c

/-- Model of Python `str.lower` (ASCII). -/
def pyLower (s : String) : String := String.mk (s.data.map pyCharLower)

/-- The whitespace characters stripped by Python `str.strip()` (ASCII:
space, tab, newline, carriage return, vertical tab, form feed). -/
def pyIsSpace (c : Char) : Bool := c.toNat ∈ [32, 9, 10, 13, 11, 12]

/-- Model of Python `str.strip()` (whitespace at both ends). -/
def pyStrip (s : String) : String :=
  String.mk (((s.data.dropWhile pyIsSpace).reverse.dropWhile pyIsSpace).reverse)

/-- Model of Python `repr` of a string without quote characters: the string
wrapped in single quotes (written as escapes). -/
def pyStrRepr (s : String) : String := "\x27" ++ s ++ "\x27"

/-- Model of the f-string rendering of a Python list of strings. -/
def pyReprStrList (xs : List String) : String :=
  "[" ++ String.intercalate ", " (xs.map pyStrRepr) ++ "]"

/-- Model of the f-string rendering of a Python set of strings.  Python set
iteration order is unspecified; the elements are rendered here in
first-occurrence order.  No claim depends on this ordering. -/
def pyReprStrSet (xs : List String) : String :=
  if xs.isEmpty then "set()"
  else "\x7b" ++ String.intercalate ", " (xs.map pyStrRepr) ++ "\x7d"

/-- Lexicographic comparison of character lists by code point: the order
Python uses to compare strings. -/
def pyCharListLe : List Char → List Char → Bool
  | [], _ => true
  | _ :: _, [] => false
  | a :: as, b :: bs =>
    if a.toNat < b.toNat then true
    else if b.toNat < a.toNat then false
    else pyCharListLe as bs

/-- Python string comparison, as a relation. -/
def pyStrLe (a b : String) : Prop := pyCharListLe a.data b.data = true

instance : DecidableRel pyStrLe := fun a b => by unfold pyStrLe; infer_instance

/-- Model of Python `sorted` on strings: a stable ascending sort by the
code-point order. -/
def pySorted (xs : List String) : List String :=
  List.insertionSort pyStrLe xs

/-- Auxiliary recursion for `pyTitle`; the boolean records whether the
previous character was alphabetic. -/
def pyTitleGo : List Char → Bool → List Char
  | [], _ => []
  | c :: cs, prevAlpha =>
    (if prevAlpha then c.toLower else c.toUpper) :: pyTitleGo cs c.isAlpha

/-- Model of Python `str.title` (ASCII): uppercase each letter that follows
a non-letter, lowercase the rest. -/
def pyTitle (s : String) : String := String.mk (pyTitleGo s.data false)

/-
Data model.  Recipient and event records are loaded from JSON and accessed
with `dict.get`/`in`, so every key may be absent: each field is an
`Option`.  `topics` and `tags` are typed as string lists; the
`isinstance(..., list)` checks of the validators are therefore vacuous in
this embedding and are omitted from the validator definitions below (they
can never fire on a typed record).  `engagement_score` is an exact
rational standing for the JSON number.
-/

structure Recipient where
  recipient_id : Option String
  name : Option String
  email : Option String
  organization : Option String
  topics : Option (List String)
  engagement_score : Option Rat
  opt_out : Option Bool
deriving Repr, DecidableEq

structure EventMetadata where
  amount_range : Option String
  application_deadline : Option String
deriving Repr, DecidableEq

structure Event where
  event_id : Option String
  title : Option String
  organizer : Option String
  start_date : Option String
  tags : Option (List String)
  metadata : Option EventMetadata
deriving Repr, DecidableEq

/-
Timestamps.  `dateutil.parser.parse` returns either a timezone-aware or a
timezone-naive datetime; `brain.is_deadline_passed` localizes naive values
to IST (UTC+05:30) and compares in UTC.  A datetime is modelled as an
integer count of minutes, either as a wall-clock reading (naive) or as a
UTC instant (aware); the parser itself is an external collaborator and is
a parameter `dp : String → Except String PyDatetime` of every function
that parses dates, the `Except.error` carrying the exception text.
-/

inductive PyDatetime where
  | naive (wallclock : Int)
  | aware (utcInstant : Int)
deriving Repr, DecidableEq

/-- IST is UTC+05:30, i.e. 330 minutes. -/
def istOffsetMinutes : Int := 330

/-- UTC instant of a parsed datetime: naive values are localized to IST and
converted, aware values are already absolute. -/
def toUtcInstant : PyDatetime → Int
  | .naive w => w - istOffsetMinutes
  | .aware u => u

/-
Constants from templates.py (`VALIDATION_RULES`).
-/

def required_recipient_fields : List String :=
  ["recipient_id", "name", "email", "organization", "topics", "engagement_score", "opt_out"]

def required_event_fields : List String :=
  ["event_id", "title", "start_date", "tags", "organizer", "metadata"]

def required_metadata_fields : List String :=
  ["amount_range", "application_deadline"]

/-- `VALIDATION_RULES["topic_match_threshold"]["medium"]`. -/
def topic_match_threshold_medium : Nat := 1

/-- `VALIDATION_RULES["engagement_thresholds"]["high"]`. -/
def engagement_threshold_high : Rat := mkRat 7 10

/-- `VALIDATION_RULES["engagement_thresholds"]["low"]`. -/
def engagement_threshold_low : Rat := mkRat 1 2

/-- Presence of a required recipient field, i.e. `field in recipient`. -/
def recipientHasField (r : Recipient) : String → Bool
  | "recipient_id" => r.recipient_id.isSome
  | "name" => r.name.isSome
  | "email" => r.email.isSome
  | "organization" => r.organization.isSome
  | "topics" => r.topics.isSome
  | "engagement_score" => r.engagement_score.isSome
  | "opt_out" => r.opt_out.isSome
  | _ => false

/-- Presence of a required event field, i.e. `field in event`. -/
def eventHasField (e : Event) : String → Bool
  | "event_id" => e.event_id.isSome
  | "title" => e.title.isSome
  | "organizer" => e.organizer.isSome
  | "start_date" => e.start_date.isSome
  | "tags" => e.tags.isSome
  | "metadata" => e.metadata.isSome
  | _ => false

/-- Presence of a required metadata sub-field. -/
def metadataHasField (m : EventMetadata) : String → Bool
  | "amount_range" => m.amount_range.isSome
  | "application_deadline" => m.application_deadline.isSome
  | _ => false

/-- brain.validate_recipient: one error string per missing required field,
in the order of `required_recipient_fields`. -/
def validate_recipient (recipient : Recipient) : List String :=
  (required_recipient_fields.filter (fun f => ¬ recipientHasField recipient f)).map
    (fun f => "Missing recipient field: " ++ f)

/-- brain.validate_event: missing top-level fields first, then (when
`metadata` is present) missing metadata sub-fields. -/
def validate_event (event : Event) : List String :=
  ((required_event_fields.filter (fun f => ¬ eventHasField event f)).map
    (fun f => "Missing event field: " ++ f))
  ++ (match event.metadata with
      | some md =>
        (required_metadata_fields.filter (fun f => ¬ metadataHasField md f)).map
          (fun f => "Missing event.metadata field: " ++ f)
      | none => [])

/-- brain.is_deadline_passed: parse the deadline; on success compare the
UTC instant with now (`datetime.now(utc) > dt`), on failure report the
exception message. -/
def is_deadline_passed (dp : String → Except String PyDatetime) (now : Int)
    (deadline_str : String) : Bool × Option String :=
  match dp deadline_str with
  | .ok dt => (decide (toUtcInstant dt < now), none)
  | .error e => (false, some ("Invalid deadline format: " ++ e))

/-- The comparison key used by brain.topic_overlap: `t.strip().lower()`. -/
def normalizeTopic (t : String) : String := pyLower (pyStrip t)

/-- brain.topic_overlap: the recipient topics whose normalized form occurs
among the normalized event tags, sorted; the elements kept are the
original (untrimmed, original-case) recipient strings.  The set
`r_lower` built by the source is dead code and is omitted. -/
def topic_overlap (recipient_topics event_tags : List String) : List String :=
  let e_lower := event_tags.map normalizeTopic
  pySorted (recipient_topics.filter (fun t => normalizeTopic t ∈ e_lower))

/-- The blocking warning of the no_topic_match branch of
brain.should_send_email (an f-string over the original lists and the
computed overlap). -/
def insufficient_overlap_warning (recipientTopics eventTags overlap : List String) : String :=
  "Insufficient topic overlap. Recipient: " ++ pyReprStrList recipientTopics
    ++ " | Event: " ++ pyReprStrList eventTags
    ++ " | Overlap: " ++ pyReprStrList overlap

/-- The deadline step of brain.should_send_email: either an early blocked
return (`some result`) or the warning list to carry forward.  The deadline
is read with `event.get("metadata", {}).get("application_deadline")` and
only checked when truthy; a truthy error message from
`is_deadline_passed` is appended as a warning instead of blocking. -/
def deadline_check (dp : String → Except String PyDatetime) (now : Int) (event : Event)
    (warnings : List String) : Option (Bool × String × List String) × List String :=
  match event.metadata.bind (fun m => m.application_deadline) with
  | none => (none, warnings)
  | some s =>
    if s = "" then (none, warnings)
    else
      match is_deadline_passed dp now s with
      | (passed, some msg) =>
        if msg ≠ "" then (none, warnings ++ [msg])
        else if passed then
          (some (false, "deadline_passed", ["Application deadline has passed - DO NOT SEND"]), warnings)
        else (none, warnings)
      | (passed, none) =>
        if passed then
          (some (false, "deadline_passed", ["Application deadline has passed - DO NOT SEND"]), warnings)
        else (none, warnings)

/-- Whether the deadline step blocks, independent of accumulated warnings. -/
def deadline_blocks (dp : String → Except String PyDatetime) (now : Int) (event : Event) : Bool :=
  (deadline_check dp now event []).1.isSome

/-- brain.should_send_email: validation, opt-out, deadline and topic
checks in order, short-circuiting on the first block. -/
def should_send_email (dp : String → Except String PyDatetime) (now : Int)
    (recipient : Recipient) (event : Event) : Bool × String × List String :=
  let r_errors := validate_recipient recipient
  let e_errors := validate_event event
  if r_errors ≠ [] ∨ e_errors ≠ [] then (false, "validation_failed", r_errors ++ e_errors)
  else if recipient.opt_out.getD false then
    (false, "opted_out", ["Recipient has opted out - DO NOT SEND"])
  else
    match deadline_check dp now event (r_errors ++ e_errors) with
    | (some result, _) => result
    | (none, warnings1) =>
      let overlap := topic_overlap (recipient.topics.getD []) (event.tags.getD [])
      if overlap.length < topic_match_threshold_medium then
        (false, "no_topic_match",
          [insufficient_overlap_warning (recipient.topics.getD []) (event.tags.getD []) overlap])
      else (true, "approved", warnings1)

/-- brain.tone_from_engagement. -/
def tone_from_engagement (score : Rat) : String :=
  if score ≥ engagement_threshold_high then "enthusiastic"
  else if score ≥ engagement_threshold_low then "professional"
  else "gentle"

/-
Result records.  The dicts returned by the pair-processing functions are
modelled as structures; keys that some paths omit (or set to `None`) are
`Option` fields, `none` standing for an absent or null key.  The
`internal_reasoning` payload is free-text audit data read by no claim and
no downstream code, and is omitted.
-/

structure Personalization where
  name : Option String
  email : Option String
  organization : Option String
deriving Repr, DecidableEq

structure Verification where
  all_data_from_json : Bool
  fallback_used : Bool
  personalization_fields : Option Personalization
deriving Repr, DecidableEq

structure EmailContent where
  subject : String
  body : String
deriving Repr, DecidableEq

/-- The `meta` dict of a result record. -/
structure ResultMeta where
  recipient_id : Option String
  event_id : Option String
  day : String
  status : String
  reason : Option String
  generated_at : Option String
  tone : Option String
  topic_overlap : Option (List String)
deriving Repr, DecidableEq

/-- A content-generation result before metadata is attached, also the shape
of a well-formed reply of the text-generation service: at the collaborator
boundary a successful reply carries at least `email.subject` and
`email.body`, optionally `verification` and `warnings` (absent lists are
read back with `get("warnings", [])`). -/
structure GenResult where
  email : EmailContent
  verification : Option Verification
  warnings : List String
deriving Repr, DecidableEq

/-- The full per-pair result record. -/
structure PairResult where
  meta : ResultMeta
  email : Option EmailContent
  verification : Option Verification
  warnings : List String
deriving Repr, DecidableEq

/-
The external text-generation call, as seen by brain.py.  A call to
`GroqEmailGenerator.generate_email_content` either returns (and inside the
method the reply parses, fails JSON parsing, or the API raises — both
failures are caught in the method), or the call itself raises (the stubbed
provider of the degrade-not-fail scenario), which is caught by the outer
`try` of `generate_email_for_pair`.
-/

inductive ContentOutcome where
  | ok (reply : GenResult)
  | jsonError (msg : String)
  | apiError (msg : String)
deriving Repr, DecidableEq

inductive ProviderCall where
  | returns (outcome : ContentOutcome)
  | raises (msg : String)
deriving Repr, DecidableEq

/-- The failure message a failing provider call folds into the fallback
warning; `none` for a successful call. -/
def contentFailureMessage : ProviderCall → Option String
  | .returns (.ok _) => none
  | .returns (.jsonError m) => some ("JSON parse error: " ++ m)
  | .returns (.apiError m) => some ("API error: " ++ m)
  | .raises m => some m

/-- brain.GroqEmailGenerator._generate_simple_body (the day argument is
unused by the source body). -/
def generate_simple_body (recipient : Recipient) (event : Event) (_day_number : String) : String :=
  let name := recipient.name.getD "there"
  let title := event.title.getD "this opportunity"
  let organizer := event.organizer.getD "the organizer"
  let amount := (event.metadata.bind (fun m => m.amount_range)).getD "[amount]"
  let deadline := (event.metadata.bind (fun m => m.application_deadline)).getD "[deadline]"
  "Hi " ++ name ++ ",\n\nI wanted to share " ++ title ++ " organised by " ++ organizer
    ++ ".\n\nGrant amount: " ++ amount ++ "\nApplication deadline: " ++ deadline
    ++ "\n\nThis may be relevant for your work at "
    ++ recipient.organization.getD "your organization"
    ++ ".\n\nBest regards,\n\nPriya Singh\nGrants Coordinator\nFunding Forward"

/-- brain.GroqEmailGenerator._fallback_email: the deterministic fallback
content; its `verification` dict has no `personalization_fields` key. -/
def fallback_email (recipient : Recipient) (event : Event) (day_number : String)
    (error : String) : GenResult :=
  { email :=
      { subject := pyStr event.title ++ " - Opportunity for " ++ pyStr recipient.organization,
        body := generate_simple_body recipient event day_number },
    verification := some { all_data_from_json := true, fallback_used := true,
                           personalization_fields := none },
    warnings := ["Used fallback due to: " ++ error] }

/-- brain.GroqEmailGenerator.generate_email_content: return the parsed
reply, or fall back on a JSON parse error or any other exception, folding
the failure text into the fallback warning.  The function is total: no
failure of the service propagates as an exception. -/
def generate_email_content (outcome : ContentOutcome) (recipient : Recipient) (event : Event)
    (day_number : String) : GenResult :=
  match outcome with
  | .ok reply => reply
  | .jsonError m => fallback_email recipient event day_number ("JSON parse error: " ++ m)
  | .apiError m => fallback_email recipient event day_number ("API error: " ++ m)

/-- brain.generate_email_for_pair.  `use_ai` conflates the source condition
`use_ai and ai_generator` condition; `nowIso` is the rendered current
timestamp; a `ProviderCall.raises` models the outer `except` around the
provider call.  Blocked pairs return immediately with the gate reason
and warnings and never touch the provider. -/
def generate_email_for_pair (dp : String → Except String PyDatetime) (now : Int)
    (nowIso : String) (call : ProviderCall) (use_ai : Bool)
    (recipient : Recipient) (event : Event) (day_number : String) : PairResult :=
  let gate := should_send_email dp now recipient event
  if ¬ gate.1 then
    { meta := { recipient_id := recipient.recipient_id, event_id := event.event_id,
                day := day_number, status := "blocked", reason := some gate.2.1,
                generated_at := none, tone := none, topic_overlap := none },
      email := none, verification := none, warnings := gate.2.2 }
  else
    let result : GenResult :=
      if use_ai then
        match call with
        | .returns outcome => generate_email_content outcome recipient event day_number
        | .raises m => fallback_email recipient event day_number m
      else fallback_email recipient event day_number "AI disabled"
    { meta := { recipient_id := recipient.recipient_id, event_id := event.event_id,
                day := day_number, status := "generated", reason := none,
                generated_at := some nowIso,
                tone := some (tone_from_engagement (recipient.engagement_score.getD (mkRat 1 2))),
                topic_overlap := some (topic_overlap (recipient.topics.getD [])
                                        (event.tags.getD [])) },
      email := some result.email, verification := result.verification,
      warnings := gate.2.2 ++ result.warnings }

/-
brain.generate_batch: the statistics accumulated over the cross-product of
days, recipients and events.  The `by_reason` dict is an association list
updated with get-default-0 increment.  File loading and the persisted
day collections are I/O around this loop and are not part of the
statistics contract.
-/

structure BatchStats where
  total : Nat
  generated : Nat
  blocked : Nat
  by_reason : List (String × Nat)
deriving Repr, DecidableEq

def sumByReason (l : List (String × Nat)) : Nat := (l.map Prod.snd).sum

/-- `stats["by_reason"][reason] = stats["by_reason"].get(reason, 0) + 1`. -/
def bumpReason : List (String × Nat) → String → List (String × Nat)
  | [], reason => [(reason, 1)]
  | (k, v) :: rest, reason =>
    if k = reason then (k, v + 1) :: rest else (k, v) :: bumpReason rest reason

/-- The statistics update of one pair inside brain.generate_batch (the
blocked branch reads `result["meta"]["reason"]`, which every blocked
record carries; `getD` supplies the never-used default). -/
def updateStats (st : BatchStats) (result : PairResult) : BatchStats :=
  if result.meta.status = "generated" then { st with generated := st.generated + 1 }
  else { st with blocked := st.blocked + 1,
                 by_reason := bumpReason st.by_reason (result.meta.reason.getD "") }

/-- One pair of the batch loop: `stats["total"] += 1`, generate, update. -/
def processPair (dp : String → Except String PyDatetime) (now : Int) (nowIso : String)
    (provider : Recipient → Event → String → ProviderCall) (use_ai : Bool) (day : String)
    (st : BatchStats) (recipient : Recipient) (event : Event) : BatchStats :=
  updateStats { st with total := st.total + 1 }
    (generate_email_for_pair dp now nowIso (provider recipient event day) use_ai
      recipient event day)

/-- brain.generate_batch: for each day, for each recipient, for each event,
process the pair and accumulate statistics, starting from zero counters. -/
def generate_batch (dp : String → Except String PyDatetime) (now : Int) (nowIso : String)
    (provider : Recipient → Event → String → ProviderCall) (use_ai : Bool)
    (recipients : List Recipient) (events : List Event) (days : List String) : BatchStats :=
  days.foldl (fun st day =>
    recipients.foldl (fun st r =>
      events.foldl (fun st e => processPair dp now nowIso provider use_ai day st r e) st) st)
    { total := 0, generated := 0, blocked := 0, by_reason := [] }

/-
src/core/generator.py — the EmailGenerator class.  Its gate
(`_validate_request`) differs from brain.should_send_email: structural
validation only appends warnings (it never blocks), the overlap keys are
lower-cased but not trimmed, and `_create_metadata` stamps a
`generated_at` timestamp and a `reason` key on every record.
-/

/-- The distinct lower-cased values of a list, first occurrences kept:
the set comprehension of EmailGenerator._validate_request. -/
def lowerSet (xs : List String) : List String := (xs.map pyLower).dedup

/-- The deadline step of EmailGenerator._validate_request: the same
truthiness and comparison as brain, but a fixed warning text and the whole
`try` body guarded by a bare `except`. -/
def lc_deadline_check (dp : String → Except String PyDatetime) (now : Int) (event : Event)
    (warnings : List String) : Option (Bool × String × List String) × List String :=
  match event.metadata.bind (fun m => m.application_deadline) with
  | none => (none, warnings)
  | some s =>
    if s = "" then (none, warnings)
    else
      match dp s with
      | .ok dt =>
        if toUtcInstant dt < now then
          (some (false, "deadline_passed", ["Deadline passed"]), warnings)
        else (none, warnings)
      | .error _ => (none, warnings ++ ["Invalid deadline format"])

/-- EmailGenerator._validate_request: missing recipient fields are warnings
only; opt-out, deadline and (untrimmed, deduplicated) topic overlap are
the blocking checks. -/
def validate_request (dp : String → Except String PyDatetime) (now : Int)
    (recipient : Recipient) (event : Event) : Bool × String × List String :=
  let warnings0 :=
    (required_recipient_fields.filter (fun f => ¬ recipientHasField recipient f)).map
      (fun f => "Missing recipient field: " ++ f)
  if recipient.opt_out.getD false then (false, "opted_out", ["Recipient opted out"])
  else
    match lc_deadline_check dp now event warnings0 with
    | (some result, _) => result
    | (none, warnings1) =>
      let r_topics := lowerSet (recipient.topics.getD [])
      let e_tags := lowerSet (event.tags.getD [])
      let overlap := r_topics.filter (fun t => t ∈ e_tags)
      if overlap.length < topic_match_threshold_medium then
        (false, "no_topic_match", ["Insufficient overlap: " ++ pyReprStrSet overlap])
      else (true, "approved", warnings1)

/-- EmailGenerator._create_metadata: every record, blocked or generated,
gets a `generated_at` timestamp, and the `reason` key is always present
(null unless blocked); the dict has no tone or topic_overlap keys. -/
def create_metadata (recipient : Recipient) (event : Event) (day status : String)
    (reason : Option String) (nowIso : String) : ResultMeta :=
  { recipient_id := recipient.recipient_id, event_id := event.event_id,
    day := day, status := status, reason := reason,
    generated_at := some nowIso, tone := none, topic_overlap := none }

/-- EmailGenerator._get_fallback_subject. -/
def get_fallback_subject (r : Recipient) (e : Event) (day : String) : String :=
  let title := e.title.getD ""
  let topics := r.topics.getD ["funding"]
  let topic := if topics.isEmpty then "Funding"
               else pyTitle ((topics.headD "").replace "_" " ")
  if day = "0" then "You\x27re in! Here\x27s what to expect - " ++ title
  else if day = "1" then "The #1 mistake that kills 97% of " ++ topic ++ " applications"
  else if day = "3" then "Proof: Real organizations getting real grant money - " ++ title
  else if day = "5" then "I get it... you\x27re skeptical (but read this about " ++ title ++ ")"
  else if day = "6" then "⏰ Tomorrow: Your " ++ topic ++ " funding breakthrough"
  else if day = "7a" then "🔴 Going LIVE in 6 hours - " ++ title
  else if day = "7b" then "⏰ Starting in 60 minutes (join now)"
  else title ++ " - Opportunity"

/-- EmailGenerator._get_fallback_body. -/
def get_fallback_body (r : Recipient) (e : Event) (day : String) : String :=
  "Hi " ++ r.name.getD "there" ++ ",\n\nThis is a fallback email for Day " ++ day
    ++ " regarding " ++ pyStr e.title
    ++ ".\n\nPlease check your API key configuration.\n\nBest,\nPriya"

/-- EmailGenerator._generate_fallback: deterministic content, a
`verification` block carrying the personalization fields of the recipient, and
the fallback warning appended when the error text is truthy. -/
def generate_fallback (r : Recipient) (e : Event) (day : String)
    (warnings : List String) (error : String) (nowIso : String) : PairResult :=
  { meta := create_metadata r e day "generated" none nowIso,
    email := some { subject := get_fallback_subject r e day,
                    body := get_fallback_body r e day },
    verification := some { all_data_from_json := true, fallback_used := true,
                           personalization_fields :=
                             some { name := r.name, email := r.email,
                                    organization := r.organization } },
    warnings := warnings ++ (if error ≠ "" then ["Used fallback: " ++ error] else []) }

/-
The LangChain call of _generate_with_ai, as seen by generate_email:
either the invoke returns and the reply parses, or parsing raises
json.JSONDecodeError (caught in _generate_with_ai), or the invoke itself
raises (caught by the `except` of generate_email).
-/

inductive LcCall where
  | returns (reply : GenResult)
  | parseError (msg : String)
  | raises (msg : String)
deriving Repr, DecidableEq

/-- EmailGenerator.generate_email: gate, then AI generation with fallback
on any failure, or direct fallback when no LLM is configured.  A blocked
pair returns `_create_blocked_response` (metadata, null email, gate
warnings — no verification key) and never touches the provider. -/
def EmailGenerator_generate_email (dp : String → Except String PyDatetime) (now : Int)
    (nowIso : String) (llmPresent : Bool) (call : LcCall)
    (recipient : Recipient) (event : Event) (day : String) : PairResult :=
  let gate := validate_request dp now recipient event
  if ¬ gate.1 then
    { meta := create_metadata recipient event day "blocked" (some gate.2.1) nowIso,
      email := none, verification := none, warnings := gate.2.2 }
  else if llmPresent then
    match call with
    | .returns reply =>
      { meta := create_metadata recipient event day "generated" none nowIso,
        email := some reply.email, verification := reply.verification,
        warnings := gate.2.2 ++ reply.warnings }
    | .parseError m =>
      generate_fallback recipient event day gate.2.2 ("JSON parse error: " ++ m) nowIso
    | .raises m => generate_fallback recipient event day gate.2.2 m nowIso
  else generate_fallback recipient event day gate.2.2 "AI disabled" nowIso

/-
main.prepare_emails_for_sending and src/core/sender.py.
-/

/-- A sendable email as assembled by main.prepare_emails_for_sending. -/
structure SendableEmail where
  recipient_email : Option String
  recipient_name : Option String
  subject : Option String
  body : Option String
  meta : ResultMeta
deriving Repr, DecidableEq

/-- main.prepare_emails_for_sending: keep records with status generated
and truthy email/subject/body; the recipient address and name are read
from `verification.personalization_fields` (defaulting through empty
dicts), not from the recipient record. -/
def prepare_emails_for_sending (generated_emails : List PairResult) : List SendableEmail :=
  generated_emails.filterMap fun item =>
    if item.meta.status ≠ "generated" then none
    else
      match item.email with
      | none => none
      | some ec =>
        if ec.subject ≠ "" ∧ ec.body ≠ "" then
          let personalization := item.verification.bind (fun v => v.personalization_fields)
          some { recipient_email := personalization.bind (fun p => p.email),
                 recipient_name := personalization.bind (fun p => p.name),
                 subject := some ec.subject, body := some ec.body,
                 meta := item.meta }
        else none

/-- The stats dict of EmailSender, zero-initialized in `__init__`. -/
structure SendStats where
  attempted : Nat
  sent : Nat
  failed : Nat
  skipped : Nat
deriving Repr, DecidableEq

def initSendStats : SendStats := { attempted := 0, sent := 0, failed := 0, skipped := 0 }

/-- The per-email loop of EmailSender.send_batch.  For each email:
increment attempted; skip when recipient_email, subject or body is falsy;
otherwise send.  `_send_single_with_retry` returns success immediately in
dry-run mode; in live mode `sendOk idx` abstracts whether some attempt
within the retry bound succeeded (rate-limit sleeps have no effect on the
statistics and are omitted). -/
def sendLoop (dryRun : Bool) (sendOk : Nat → Bool) :
    SendStats → Nat → List SendableEmail → SendStats
  | st, _, [] => st
  | st, idx, em :: rest =>
    let st1 := { st with attempted := st.attempted + 1 }
    let st2 :=
      if ¬ truthyOptStr em.recipient_email ∨ ¬ truthyOptStr em.subject
          ∨ ¬ truthyOptStr em.body then
        { st1 with skipped := st1.skipped + 1 }
      else if dryRun then { st1 with sent := st1.sent + 1 }
      else if sendOk idx then { st1 with sent := st1.sent + 1 }
      else { st1 with failed := st1.failed + 1 }
    sendLoop dryRun sendOk st2 (idx + 1) rest

/-- EmailSender.send_batch: return the stats unchanged on an empty batch
or when the live SMTP connection fails (`connOk` abstracts the connection
attempt, consulted only when not in dry-run mode); otherwise run the
loop, starting `enumerate(emails, 1)` at index 1.  `init` is the state of
`self.stats` at entry, zero for a freshly constructed sender. -/
def send_batch (dryRun connOk : Bool) (sendOk : Nat → Bool) (init : SendStats)
    (emails : List SendableEmail) : SendStats :=
  if emails.isEmpty then init
  else if ¬ dryRun ∧ ¬ connOk then init
  else sendLoop dryRun sendOk init 1 emails

/-
Concrete test data used by counterexamples and witnesses.  `dpFix` is a
concrete instantiation of the external date parser: it recognizes the
fixture deadlines and rejects everything else, the way dateutil accepts
some strings and raises on the rest.  `now` is taken as instant 0.
-/

def dpFix : String → Except String PyDatetime := fun s =>
  if s = "2099-01-01" then Except.ok (PyDatetime.naive 1000000)
  else if s = "2020-01-01" then Except.ok (PyDatetime.aware (-100))
  else Except.error "Unknown string format"

def rValid : Recipient :=
  { recipient_id := some "r1", name := some "Asha", email := some "asha@example.org",
    organization := some "Org", topics := some ["education"],
    engagement_score := some (mkRat 9 10), opt_out := some false }

/-- A recipient who both opted out and fails structural validation. -/
def rOptOutNoName : Recipient := { rValid with name := none, opt_out := some true }

/-- A valid recipient whose topics do not meet the tags of eValid. -/
def rHealth : Recipient := { rValid with topics := some ["health"] }

def mdValid : EventMetadata :=
  { amount_range := some "$10,000 - $50,000", application_deadline := some "2099-01-01" }

def eValid : Event :=
  { event_id := some "e1", title := some "Grant Summit", organizer := some "Funding Forward",
    start_date := some "2026-03-01", tags := some ["education"], metadata := some mdValid }

/-- eValid with a deadline that parses to an instant before now = 0. -/
def ePast : Event :=
  { eValid with metadata := some { mdValid with application_deadline := some "2020-01-01" } }

/-- eValid with a deadline dpFix does not parse. -/
def eBadDeadline : Event :=
  { eValid with metadata := some { mdValid with application_deadline := some "soonish" } }

/-- A provider reply that is well-formed at the collaborator boundary. -/
def replyStub : GenResult :=
  { email := { subject := "s", body := "b" }, verification := none, warnings := [] }

/-
Helper lemmas about the gate.
-/

/-- A string with a nonempty prefix is nonempty. -/
theorem append_ne_empty_of_left (p m : String) (hp : p.data ≠ []) : p ++ m ≠ "" := by
  intro h
  apply hp
  have hd : (p ++ m).data = p.data ++ m.data := by
    cases p with
    | mk pd => cases m with
      | mk md => rfl
  have : p.data ++ m.data = ([] : List Char) := by
    rw [← hd, h]
  exact (List.append_eq_nil.mp this).1

/-- When validation passes and the recipient opted out, the brain gate
blocks with opted_out. -/
theorem should_send_email_opted_out (dp : String → Except String PyDatetime) (now : Int)
    (r : Recipient) (e : Event) (hr : validate_recipient r = [])
    (he : validate_event e = []) (hopt : r.opt_out = some true) :
    should_send_email dp now r e =
      (false, "opted_out", ["Recipient has opted out - DO NOT SEND"]) := by
  simp [should_send_email, hr, he, hopt]

/-- When validation passes and the recipient did not opt out, the brain
gate reduces to the deadline and topic steps. -/
theorem should_send_email_after_early (dp : String → Except String PyDatetime) (now : Int)
    (r : Recipient) (e : Event) (hr : validate_recipient r = [])
    (he : validate_event e = []) (hopt : r.opt_out.getD false = false) :
    should_send_email dp now r e =
      (match deadline_check dp now e [] with
       | (some result, _) => result
       | (none, warnings1) =>
         let overlap := topic_overlap (r.topics.getD []) (e.tags.getD [])
         if overlap.length < topic_match_threshold_medium then
           (false, "no_topic_match",
             [insufficient_overlap_warning (r.topics.getD []) (e.tags.getD []) overlap])
         else (true, "approved", warnings1)) := by
  simp [should_send_email, hr, he, hopt]

/-- C2: the brain gate checks validation first: any validation error blocks
with reason validation_failed and warnings equal to the concatenation of
the recipient and event error sequences, taking precedence over the
opt-out, deadline and topic rules (no hypothesis about those is needed). -/
theorem validation_failed_precedence (dp : String → Except String PyDatetime) (now : Int)
    (r : Recipient) (e : Event)
    (h : validate_recipient r ≠ [] ∨ validate_event e ≠ []) :
    should_send_email dp now r e =
      (false, "validation_failed", validate_recipient r ++ validate_event e) := by
  simp only [should_send_email]
  rw [if_pos h]

/-- Witness for C2 at a concrete input: a recipient that both fails
validation (missing name) and has opt_out = true is blocked with
validation_failed, not opted_out. -/
theorem validation_failed_precedence_witness :
    should_send_email dpFix 0 rOptOutNoName eValid =
      (false, "validation_failed", validate_recipient rOptOutNoName ++ validate_event eValid) :=
  validation_failed_precedence dpFix 0 rOptOutNoName eValid (by decide)

/-- C1 counterexample: a recipient record with opt_out = true that also
fails structural validation is blocked by generate_email_for_pair with
reason validation_failed, not opted_out, so the claim as stated (reason =
opted_out for every recipient with opt_out = true) is false on the code. -/
theorem opt_out_reason_cex :
    rOptOutNoName.opt_out = some true ∧
    (generate_email_for_pair dpFix 0 "t" (.raises "x") true rOptOutNoName eValid "1").meta.status
      = "blocked" ∧
    (generate_email_for_pair dpFix 0 "t" (.raises "x") true rOptOutNoName eValid "1").meta.reason
      ≠ some "opted_out" := by
  refine ⟨rfl, ?_, ?_⟩ <;> decide

/-- C1 (amended): for every recipient with opt_out = true, every event,
day and provider behaviour: if the pair passes structural validation,
generate_email_for_pair blocks with reason opted_out regardless of topic
overlap or deadline (validation_failed takes precedence otherwise), and
EmailGenerator.generate_email blocks with opted_out unconditionally (its
gate never blocks on validation).  Both equalities hold for every
provider call, so content generation is never invoked for such a pair. -/
theorem opt_out_blocks (dp : String → Except String PyDatetime) (now : Int) (nowIso : String)
    (call : ProviderCall) (use_ai : Bool) (llmPresent : Bool) (lcall : LcCall)
    (r : Recipient) (e : Event) (day : String) (hopt : r.opt_out = some true) :
    (validate_recipient r = [] → validate_event e = [] →
      generate_email_for_pair dp now nowIso call use_ai r e day =
        { meta := { recipient_id := r.recipient_id, event_id := e.event_id, day := day,
                    status := "blocked", reason := some "opted_out", generated_at := none,
                    tone := none, topic_overlap := none },
          email := none, verification := none,
          warnings := ["Recipient has opted out - DO NOT SEND"] })
    ∧ EmailGenerator_generate_email dp now nowIso llmPresent lcall r e day =
        { meta := create_metadata r e day "blocked" (some "opted_out") nowIso,
          email := none, verification := none, warnings := ["Recipient opted out"] } := by
  constructor
  · intro hr he
    simp [generate_email_for_pair, should_send_email_opted_out dp now r e hr he hopt]
  · simp [EmailGenerator_generate_email, validate_request, hopt]

/-- Witness for C1 at a concrete input: an opted-out, structurally valid
recipient is blocked with opted_out by both pair processors, whatever the
provider would have answered. -/
theorem opt_out_blocks_witness :
    generate_email_for_pair dpFix 0 "t" (.returns (.ok replyStub)) true
        { rValid with opt_out := some true } eValid "1" =
      { meta := { recipient_id := some "r1", event_id := some "e1", day := "1",
                  status := "blocked", reason := some "opted_out", generated_at := none,
                  tone := none, topic_overlap := none },
        email := none, verification := none,
        warnings := ["Recipient has opted out - DO NOT SEND"] }
    ∧ EmailGenerator_generate_email dpFix 0 "t" true (.returns replyStub)
        { rValid with opt_out := some true } eValid "1" =
      { meta := create_metadata { rValid with opt_out := some true } eValid "1" "blocked"
                  (some "opted_out") "t",
        email := none, verification := none, warnings := ["Recipient opted out"] } :=
  ⟨(opt_out_blocks dpFix 0 "t" (.returns (.ok replyStub)) true true (.returns replyStub)
      { rValid with opt_out := some true } eValid "1" rfl).1 (by decide) (by decide),
   (opt_out_blocks dpFix 0 "t" (.returns (.ok replyStub)) true true (.returns replyStub)
      { rValid with opt_out := some true } eValid "1" rfl).2⟩

/-- C3 counterexample: EmailGenerator.generate_email produces a blocked
record whose meta carries a generated_at timestamp
(_create_metadata stamps every record), so "generated_at present iff
status = generated" is false on the code. -/
theorem generated_at_presence_cex :
    (EmailGenerator_generate_email dpFix 0 "2026-02-03T10:00:00+05:30" true (.raises "x")
        { rValid with opt_out := some true } eValid "1").meta.status = "blocked"
    ∧ (EmailGenerator_generate_email dpFix 0 "2026-02-03T10:00:00+05:30" true (.raises "x")
        { rValid with opt_out := some true } eValid "1").meta.generated_at
      = some "2026-02-03T10:00:00+05:30" := by
  constructor <;> decide

/-- C3 (amended): every record of brain.generate_email_for_pair satisfies
the full field-presence invariant (email non-null iff generated, reason
non-null iff blocked, generated_at non-null iff generated); every record
of EmailGenerator.generate_email satisfies the email and reason halves,
but carries a generated_at timestamp on every record, blocked included. -/
theorem result_field_presence (dp : String → Except String PyDatetime) (now : Int)
    (nowIso : String) (call : ProviderCall) (use_ai : Bool) (llmPresent : Bool)
    (lcall : LcCall) (r : Recipient) (e : Event) (day : String) :
    ((generate_email_for_pair dp now nowIso call use_ai r e day).email.isSome
        ↔ (generate_email_for_pair dp now nowIso call use_ai r e day).meta.status = "generated")
    ∧ ((generate_email_for_pair dp now nowIso call use_ai r e day).meta.reason.isSome
        ↔ (generate_email_for_pair dp now nowIso call use_ai r e day).meta.status = "blocked")
    ∧ ((generate_email_for_pair dp now nowIso call use_ai r e day).meta.generated_at.isSome
        ↔ (generate_email_for_pair dp now nowIso call use_ai r e day).meta.status = "generated")
    ∧ ((EmailGenerator_generate_email dp now nowIso llmPresent lcall r e day).email.isSome
        ↔ (EmailGenerator_generate_email dp now nowIso llmPresent lcall r e day).meta.status
            = "generated")
    ∧ ((EmailGenerator_generate_email dp now nowIso llmPresent lcall r e day).meta.reason.isSome
        ↔ (EmailGenerator_generate_email dp now nowIso llmPresent lcall r e day).meta.status
            = "blocked")
    ∧ (EmailGenerator_generate_email dp now nowIso llmPresent lcall r e day).meta.generated_at
        = some nowIso := by
  have hbg : ("blocked" : String) ≠ "generated" := by decide
  have hgb : ("generated" : String) ≠ "blocked" := by decide
  by_cases h : (should_send_email dp now r e).1 <;>
    by_cases h2 : (validate_request dp now r e).1 <;>
      cases lcall <;> cases llmPresent <;>
        simp [generate_email_for_pair, EmailGenerator_generate_email, generate_fallback,
          create_metadata, h, h2, hbg, hgb]

/-- C4: for every approved pair, any failing provider interaction — a
JSON-unparseable reply, an API/transport error caught inside
generate_email_content, or a provider call that raises (caught by the
outer except of generate_email_for_pair) — still yields status =
generated with the deterministic fallback email, and the warnings contain
the fallback marker naming the failure.  The embedding of the content
path is a total function, so no provider failure escapes it as an
exception. -/
theorem provider_failure_degrades (dp : String → Except String PyDatetime) (now : Int)
    (nowIso : String) (call : ProviderCall) (r : Recipient) (e : Event) (day : String)
    (fm : String) (happroved : (should_send_email dp now r e).1 = true)
    (hfail : contentFailureMessage call = some fm) :
    (generate_email_for_pair dp now nowIso call true r e day).meta.status = "generated"
    ∧ (generate_email_for_pair dp now nowIso call true r e day).email
        = some (fallback_email r e day fm).email
    ∧ ("Used fallback due to: " ++ fm)
        ∈ (generate_email_for_pair dp now nowIso call true r e day).warnings := by
  cases call with
  | raises m =>
    simp only [contentFailureMessage, Option.some.injEq] at hfail
    subst hfail
    simp [generate_email_for_pair, happroved, fallback_email]
  | returns outcome =>
    cases outcome with
    | ok reply => simp [contentFailureMessage] at hfail
    | jsonError m =>
      simp only [contentFailureMessage, Option.some.injEq] at hfail
      subst hfail
      simp [generate_email_for_pair, happroved, generate_email_content, fallback_email]
    | apiError m =>
      simp only [contentFailureMessage, Option.some.injEq] at hfail
      subst hfail
      simp [generate_email_for_pair, happroved, generate_email_content, fallback_email]

/-- Witness for C4 at a concrete input: an approved pair whose provider
call raises still comes back generated, with the fallback email and the
fallback-used warning. -/
theorem provider_failure_degrades_witness :
    (generate_email_for_pair dpFix 0 "t" (.raises "service down") true rValid eValid "1").meta.status
      = "generated"
    ∧ (generate_email_for_pair dpFix 0 "t" (.raises "service down") true rValid eValid "1").email
        = some (fallback_email rValid eValid "1" "service down").email
    ∧ ("Used fallback due to: " ++ "service down")
        ∈ (generate_email_for_pair dpFix 0 "t" (.raises "service down") true rValid eValid "1").warnings :=
  provider_failure_degrades dpFix 0 "t" (.raises "service down") rValid eValid "1"
    "service down" (by decide) rfl

/-
Order facts about the Python string comparison, needed to state that
the output of topic_overlap is sorted.
-/

theorem pyCharListLe_total : ∀ as bs : List Char,
    pyCharListLe as bs = true ∨ pyCharListLe bs as = true := by
  intro as
  induction as with
  | nil => intro bs; left; rfl
  | cons a as ih =>
    intro bs
    cases bs with
    | nil => right; rfl
    | cons b bs =>
      by_cases h1 : a.toNat < b.toNat
      · left; simp [pyCharListLe, h1]
      · by_cases h2 : b.toNat < a.toNat
        · right; simp [pyCharListLe, h2]
        · rcases ih bs with h | h
          · left; simp [pyCharListLe, h1, h2, h]
          · right; simp [pyCharListLe, h1, h2, h]

theorem pyCharListLe_trans : ∀ as bs cs : List Char,
    pyCharListLe as bs = true → pyCharListLe bs cs = true → pyCharListLe as cs = true := by
  intro as
  induction as with
  | nil => intro bs cs _ _; rfl
  | cons a as ih =>
    intro bs cs hab hbc
    cases bs with
    | nil => simp [pyCharListLe] at hab
    | cons b bs =>
      cases cs with
      | nil => simp [pyCharListLe] at hbc
      | cons c cs =>
        simp only [pyCharListLe] at hab hbc ⊢
        by_cases hab1 : a.toNat < b.toNat <;> by_cases hab2 : b.toNat < a.toNat <;>
          by_cases hbc1 : b.toNat < c.toNat <;> by_cases hbc2 : c.toNat < b.toNat <;>
            simp [hab1, hab2, hbc1, hbc2] at hab hbc ⊢ <;>
              first
                | omega
                | (have h1 : ¬ a.toNat < c.toNat := by omega
                   have h2 : ¬ c.toNat < a.toNat := by omega
                   simp [h1, h2]
                   first
                     | exact ih bs cs hab hbc
                     | exact ⟨by omega, ih bs cs hab hbc⟩)

instance : IsTotal String pyStrLe :=
  ⟨fun a b => pyCharListLe_total a.data b.data⟩

instance : IsTrans String pyStrLe :=
  ⟨fun a b c => pyCharListLe_trans a.data b.data c.data⟩

/-- C5 counterexample: on the example given in the spec the computed overlap is
not the claimed `["Climate_Action", "health"]`: the code keeps the
recipient string untrimmed and sorts by code points, which puts
`" health "` (leading space) first. -/
theorem topic_overlap_example_cex :
    topic_overlap ["Climate_Action", " health "] ["climate_action", "HEALTH"]
      ≠ ["Climate_Action", "health"] := by decide

/-- C5 (amended): topic_overlap compares case-insensitively after trimming
whitespace and reports the matching recipient topics in their original
spelling (untrimmed, original casing), sorted by Python string order; on
the example from the spec the reported overlap is `[" health ", "Climate_Action"]`. -/
theorem topic_overlap_characterization :
    (∀ rt et : List String, List.Sorted pyStrLe (topic_overlap rt et))
    ∧ (∀ rt et : List String, ∀ t,
        t ∈ topic_overlap rt et ↔ t ∈ rt ∧ normalizeTopic t ∈ et.map normalizeTopic)
    ∧ topic_overlap ["Climate_Action", " health "] ["climate_action", "HEALTH"]
        = [" health ", "Climate_Action"] := by
  refine ⟨?_, ?_, by decide⟩
  · intro rt et
    exact List.sorted_insertionSort pyStrLe _
  · intro rt et t
    simp [topic_overlap, pySorted, List.mem_insertionSort, List.mem_filter]

/-- C6: for a pair that passes validation and opt-out, the brain gate
never blocks with deadline_passed on an absent deadline; on a present
(truthy) but unparseable deadline it appends the parse warning and
continues (the warning is carried into an approved result); and when the
deadline parses — naive values localized to IST, compared in UTC — to an
instant strictly before now, it blocks with deadline_passed, regardless
of topic overlap. -/
theorem deadline_rule (dp : String → Except String PyDatetime) (now : Int)
    (r : Recipient) (e : Event) (hr : validate_recipient r = [])
    (he : validate_event e = []) (hopt : r.opt_out.getD false = false) :
    (e.metadata.bind (fun md => md.application_deadline) = none →
        (should_send_email dp now r e).2.1 ≠ "deadline_passed")
    ∧ (∀ s m, e.metadata.bind (fun md => md.application_deadline) = some s → s ≠ "" →
        dp s = Except.error m →
        (should_send_email dp now r e).2.1 ≠ "deadline_passed"
        ∧ ((should_send_email dp now r e).1 = true →
            ("Invalid deadline format: " ++ m) ∈ (should_send_email dp now r e).2.2))
    ∧ (∀ s dt, e.metadata.bind (fun md => md.application_deadline) = some s → s ≠ "" →
        dp s = Except.ok dt → toUtcInstant dt < now →
        should_send_email dp now r e
          = (false, "deadline_passed", ["Application deadline has passed - DO NOT SEND"])) := by
  have hafter := should_send_email_after_early dp now r e hr he hopt
  refine ⟨?_, ?_, ?_⟩
  · intro hdl
    have hdc : deadline_check dp now e [] = (none, []) := by
      simp [deadline_check, hdl]
    rw [hafter, hdc]
    by_cases hov : (topic_overlap (r.topics.getD []) (e.tags.getD [])).length
        < topic_match_threshold_medium <;> simp [hov]
  · intro s m hdl hs herr
    have hmsg : ("Invalid deadline format: " ++ m) ≠ "" :=
      append_ne_empty_of_left "Invalid deadline format: " m (by decide)
    have hdc : deadline_check dp now e []
        = (none, ["Invalid deadline format: " ++ m]) := by
      simp [deadline_check, hdl, hs, is_deadline_passed, herr, hmsg]
    rw [hafter, hdc]
    by_cases hov : (topic_overlap (r.topics.getD []) (e.tags.getD [])).length
        < topic_match_threshold_medium <;> simp [hov]
  · intro s dt hdl hs hok hpast
    have hdc : deadline_check dp now e []
        = (some (false, "deadline_passed", ["Application deadline has passed - DO NOT SEND"]),
           []) := by
      simp [deadline_check, hdl, hs, is_deadline_passed, hok, hpast]
    rw [hafter, hdc]

/-- Witness for C6 at concrete inputs: a parseable past deadline blocks
with deadline_passed even with full topic overlap, and an unparseable
deadline does not produce a deadline_passed reason. -/
theorem deadline_rule_witness :
    should_send_email dpFix 0 rValid ePast
      = (false, "deadline_passed", ["Application deadline has passed - DO NOT SEND"])
    ∧ (should_send_email dpFix 0 rValid eBadDeadline).2.1 ≠ "deadline_passed" :=
  ⟨((deadline_rule dpFix 0 rValid ePast (by decide) (by decide) (by decide)).2.2
      "2020-01-01" (.aware (-100)) (by decide) (by decide) rfl (by decide)),
   ((deadline_rule dpFix 0 rValid eBadDeadline (by decide) (by decide) (by decide)).2.1
      "soonish" "Unknown string format" (by decide) (by decide) rfl).1⟩

/-- C7: for a pair that reaches the topic check (validation passed, not
opted out, deadline step not blocking), the brain gate blocks with
no_topic_match exactly when the overlap count is below the medium
threshold of 1, i.e. exactly when the case-insensitive trimmed
intersection is empty; the block carries the warning listing both
original sequences and the computed overlap, and otherwise the pair is
approved with the warnings accumulated so far. -/
theorem no_topic_match_rule (dp : String → Except String PyDatetime) (now : Int)
    (r : Recipient) (e : Event) (hr : validate_recipient r = [])
    (he : validate_event e = []) (hopt : r.opt_out.getD false = false)
    (hdb : deadline_blocks dp now e = false) :
    ((should_send_email dp now r e).2.1 = "no_topic_match"
        ↔ (topic_overlap (r.topics.getD []) (e.tags.getD [])).length
            < topic_match_threshold_medium)
    ∧ ((topic_overlap (r.topics.getD []) (e.tags.getD [])).length
          < topic_match_threshold_medium
        ↔ topic_overlap (r.topics.getD []) (e.tags.getD []) = [])
    ∧ (topic_overlap (r.topics.getD []) (e.tags.getD []) = [] →
        should_send_email dp now r e
          = (false, "no_topic_match",
             [insufficient_overlap_warning (r.topics.getD []) (e.tags.getD [])
                (topic_overlap (r.topics.getD []) (e.tags.getD []))]))
    ∧ (topic_overlap (r.topics.getD []) (e.tags.getD []) ≠ [] →
        should_send_email dp now r e = (true, "approved", (deadline_check dp now e []).2)) := by
  have hafter := should_send_email_after_early dp now r e hr he hopt
  rcases hp : deadline_check dp now e [] with ⟨o, w⟩
  have ho : o = none := by
    unfold deadline_blocks at hdb
    rw [hp] at hdb
    simpa using hdb
  subst ho
  rw [hp] at hafter
  simp only [] at hafter
  have hlen : (topic_overlap (r.topics.getD []) (e.tags.getD [])).length
      < topic_match_threshold_medium
      ↔ topic_overlap (r.topics.getD []) (e.tags.getD []) = [] := by
    unfold topic_match_threshold_medium
    rw [Nat.lt_one_iff, List.length_eq_zero]
  by_cases hov : (topic_overlap (r.topics.getD []) (e.tags.getD [])).length
      < topic_match_threshold_medium
  · refine ⟨by simp [hafter, hov], hlen, fun _ => by simp [hafter, hov], fun hne => ?_⟩
    exact absurd (hlen.mp hov) hne
  · refine ⟨?_, hlen, fun heq => absurd (hlen.mpr heq) hov, fun _ => ?_⟩
    · rw [hafter]
      simp only [hov, if_false]
      constructor
      · intro h
        exact absurd h (by decide)
      · intro h
        exact h.elim
    · rw [hafter]
      simp [hov, hp]

/-- Witness for C7 at concrete inputs: zero case-insensitive intersection
blocks with no_topic_match and the listing warning; a one-element
intersection is approved. -/
theorem no_topic_match_rule_witness :
    should_send_email dpFix 0 rHealth eValid
      = (false, "no_topic_match",
         [insufficient_overlap_warning ["health"] ["education"] []])
    ∧ should_send_email dpFix 0 rValid eValid
      = (true, "approved", (deadline_check dpFix 0 eValid []).2) :=
  ⟨by
    have h := (no_topic_match_rule dpFix 0 rHealth eValid (by decide) (by decide)
      (by decide) (by decide)).2.2.1 (by decide)
    simpa using h,
   (no_topic_match_rule dpFix 0 rValid eValid (by decide) (by decide)
      (by decide) (by decide)).2.2.2 (by decide)⟩

/-
Batch statistics lemmas.
-/

/-- The statistics invariant maintained by the batch loop. -/
def GoodStats (st : BatchStats) : Prop :=
  st.total = st.generated + st.blocked ∧ sumByReason st.by_reason = st.blocked

theorem sumByReason_bumpReason (l : List (String × Nat)) (rs : String) :
    sumByReason (bumpReason l rs) = sumByReason l + 1 := by
  induction l with
  | nil => simp [bumpReason, sumByReason]
  | cons kv rest ih =>
    rcases kv with ⟨k, v⟩
    by_cases h : k = rs
    · simp [bumpReason, h, sumByReason]
      omega
    · simp only [bumpReason, if_neg h, sumByReason, List.map_cons, List.sum_cons] at ih ⊢
      omega

theorem processPair_total (dp : String → Except String PyDatetime) (now : Int)
    (nowIso : String) (provider : Recipient → Event → String → ProviderCall)
    (use_ai : Bool) (day : String) (st : BatchStats) (r : Recipient) (e : Event) :
    (processPair dp now nowIso provider use_ai day st r e).total = st.total + 1 := by
  unfold processPair updateStats
  split <;> rfl

theorem processPair_good (dp : String → Except String PyDatetime) (now : Int)
    (nowIso : String) (provider : Recipient → Event → String → ProviderCall)
    (use_ai : Bool) (day : String) (st : BatchStats) (r : Recipient) (e : Event)
    (h : GoodStats st) : GoodStats (processPair dp now nowIso provider use_ai day st r e) := by
  rcases h with ⟨h1, h2⟩
  unfold processPair updateStats GoodStats
  split
  · constructor <;> simp <;> omega
  · constructor
    · simp
      omega
    · simp [sumByReason_bumpReason]
      omega

/-- Folding a step that adds `k` to total and preserves the invariant. -/
theorem foldl_stats {α : Type} (f : BatchStats → α → BatchStats) (k : Nat)
    (ht : ∀ st x, (f st x).total = st.total + k)
    (hg : ∀ st x, GoodStats st → GoodStats (f st x)) :
    ∀ (l : List α) (st : BatchStats),
      (l.foldl f st).total = st.total + l.length * k
      ∧ (GoodStats st → GoodStats (l.foldl f st)) := by
  intro l
  induction l with
  | nil => intro st; simp
  | cons x xs ih =>
    intro st
    rcases ih (f st x) with ⟨ih1, ih2⟩
    constructor
    · rw [List.foldl_cons, ih1, ht, List.length_cons, Nat.succ_mul]
      omega
    · intro hs
      rw [List.foldl_cons]
      exact ih2 (hg st x hs)

/-- C8: after any batch run, total counts every (day, recipient, event)
triple, every pair increments exactly one of generated or blocked, and
the by_reason counts of blocked pairs sum to blocked. -/
theorem batch_stats_invariant (dp : String → Except String PyDatetime) (now : Int)
    (nowIso : String) (provider : Recipient → Event → String → ProviderCall)
    (use_ai : Bool) (recipients : List Recipient) (events : List Event)
    (days : List String) :
    (generate_batch dp now nowIso provider use_ai recipients events days).total
      = days.length * (recipients.length * events.length)
    ∧ (generate_batch dp now nowIso provider use_ai recipients events days).total
      = (generate_batch dp now nowIso provider use_ai recipients events days).generated
        + (generate_batch dp now nowIso provider use_ai recipients events days).blocked
    ∧ sumByReason (generate_batch dp now nowIso provider use_ai recipients events days).by_reason
      = (generate_batch dp now nowIso provider use_ai recipients events days).blocked := by
  have hinner : ∀ day r,
      ∀ st, ((events.foldl (fun st e => processPair dp now nowIso provider use_ai day st r e) st).total
          = st.total + events.length * 1)
        ∧ (GoodStats st →
            GoodStats (events.foldl (fun st e => processPair dp now nowIso provider use_ai day st r e) st)) :=
    fun day r => foldl_stats _ 1
      (fun st e => processPair_total dp now nowIso provider use_ai day st r e)
      (fun st e h => processPair_good dp now nowIso provider use_ai day st r e h) events
  have hmid : ∀ day,
      ∀ st, ((recipients.foldl (fun st r =>
            events.foldl (fun st e => processPair dp now nowIso provider use_ai day st r e) st) st).total
          = st.total + recipients.length * events.length)
        ∧ (GoodStats st →
            GoodStats (recipients.foldl (fun st r =>
              events.foldl (fun st e => processPair dp now nowIso provider use_ai day st r e) st) st)) :=
    fun day => foldl_stats _ events.length
      (fun st r => by
        have := (hinner day r st).1
        simpa using this)
      (fun st r h => (hinner day r st).2 h) recipients
  have houter :
      ∀ st, ((days.foldl (fun st day =>
            recipients.foldl (fun st r =>
              events.foldl (fun st e => processPair dp now nowIso provider use_ai day st r e) st) st) st).total
          = st.total + days.length * (recipients.length * events.length))
        ∧ (GoodStats st →
            GoodStats (days.foldl (fun st day =>
              recipients.foldl (fun st r =>
                events.foldl (fun st e => processPair dp now nowIso provider use_ai day st r e) st) st) st)) :=
    foldl_stats _ (recipients.length * events.length)
      (fun st day => (hmid day st).1)
      (fun st day h => (hmid day st).2 h) days
  have hinit : GoodStats { total := 0, generated := 0, blocked := 0, by_reason := [] } := by
    constructor <;> rfl
  rcases houter { total := 0, generated := 0, blocked := 0, by_reason := [] } with ⟨h1, h2⟩
  rcases h2 hinit with ⟨h3, h4⟩
  unfold generate_batch
  exact ⟨by simpa using h1, h3, h4⟩

/-- Each run of the send loop adds a + b + c to attempted and distributes
it exactly over sent (a), failed (b) and skipped (c); dry-run never adds
to failed. -/
theorem sendLoop_delta (dryRun : Bool) (sendOk : Nat → Bool) :
    ∀ (emails : List SendableEmail) (st : SendStats) (idx : Nat),
      ∃ a b c : Nat,
        sendLoop dryRun sendOk st idx emails
          = { attempted := st.attempted + (a + b + c), sent := st.sent + a,
              failed := st.failed + b, skipped := st.skipped + c }
        ∧ (dryRun = true → b = 0) := by
  intro emails
  induction emails with
  | nil =>
    intro st idx
    exact ⟨0, 0, 0, by simp [sendLoop], fun _ => rfl⟩
  | cons em rest ih =>
    intro st idx
    simp only [sendLoop]
    by_cases hskip : ¬ truthyOptStr em.recipient_email = true
        ∨ ¬ truthyOptStr em.subject = true ∨ ¬ truthyOptStr em.body = true
    · rw [if_pos hskip]
      obtain ⟨a, b, c, heq, hb⟩ :=
        ih { st with attempted := st.attempted + 1, skipped := st.skipped + 1 } (idx + 1)
      refine ⟨a, b, c + 1, ?_, hb⟩
      rw [heq]
      congr 1 <;> simp <;> omega
    · rw [if_neg hskip]
      by_cases hD : dryRun = true
      · rw [if_pos hD]
        obtain ⟨a, b, c, heq, hb⟩ :=
          ih { st with attempted := st.attempted + 1, sent := st.sent + 1 } (idx + 1)
        refine ⟨a + 1, b, c, ?_, hb⟩
        rw [heq]
        congr 1 <;> simp <;> omega
      · rw [if_neg hD]
        by_cases hok : sendOk idx = true
        · rw [if_pos hok]
          obtain ⟨a, b, c, heq, hb⟩ :=
            ih { st with attempted := st.attempted + 1, sent := st.sent + 1 } (idx + 1)
          refine ⟨a + 1, b, c, ?_, hb⟩
          rw [heq]
          congr 1 <;> simp <;> omega
        · rw [if_neg hok]
          obtain ⟨a, b, c, heq, _⟩ :=
            ih { st with attempted := st.attempted + 1, failed := st.failed + 1 } (idx + 1)
          refine ⟨a, b + 1, c, ?_, fun h => absurd h hD⟩
          rw [heq]
          congr 1 <;> simp <;> omega

/-- C10: on every return of send_batch — empty batch, failed live SMTP
connection, dry-run, or the full loop — the stats of a freshly
constructed sender satisfy attempted = sent + failed + skipped, and in
dry-run mode failed is 0. -/
theorem send_batch_partition (dryRun connOk : Bool) (sendOk : Nat → Bool)
    (emails : List SendableEmail) :
    ((send_batch dryRun connOk sendOk initSendStats emails).attempted
      = (send_batch dryRun connOk sendOk initSendStats emails).sent
        + (send_batch dryRun connOk sendOk initSendStats emails).failed
        + (send_batch dryRun connOk sendOk initSendStats emails).skipped)
    ∧ (dryRun = true → (send_batch dryRun connOk sendOk initSendStats emails).failed = 0) := by
  unfold send_batch
  by_cases he : emails.isEmpty
  · simp [he, initSendStats]
  · by_cases hc : ¬ dryRun = true ∧ ¬ connOk = true
    · simp [he, hc, initSendStats]
    · simp only [he, hc, if_false]
      obtain ⟨a, b, c, heq, hb⟩ := sendLoop_delta dryRun sendOk emails initSendStats 1
      rw [heq]
      constructor
      · simp [initSendStats]
      · intro hd
        simp [initSendStats, hb hd]

/-- C9: a record with status generated and truthy subject/body but no
`verification.personalization_fields.email` (for instance the brain.py
fallback output, whose verification block has no personalization fields)
enters the sendable batch with recipient_email = None — the address is
read from the verification block of the record, never from the recipient — and
send_batch then counts it as skipped: attempted and skipped are
incremented, sent and failed are not. -/
theorem missing_personalization_skipped (item : PairResult) (ec : EmailContent)
    (dryRun connOk : Bool) (sendOk : Nat → Bool)
    (hstatus : item.meta.status = "generated")
    (hemail : item.email = some ec)
    (hsub : ec.subject ≠ "") (hbody : ec.body ≠ "")
    (hpers : (item.verification.bind (fun v => v.personalization_fields)).bind
        (fun p => p.email) = none)
    (hrun : dryRun = true ∨ connOk = true) :
    prepare_emails_for_sending [item]
      = [{ recipient_email := none,
           recipient_name := (item.verification.bind (fun v => v.personalization_fields)).bind
             (fun p => p.name),
           subject := some ec.subject, body := some ec.body, meta := item.meta }]
    ∧ send_batch dryRun connOk sendOk initSendStats (prepare_emails_for_sending [item])
      = { attempted := 1, sent := 0, failed := 0, skipped := 1 } := by
  have hprep : prepare_emails_for_sending [item]
      = [{ recipient_email := none,
           recipient_name := (item.verification.bind (fun v => v.personalization_fields)).bind
             (fun p => p.name),
           subject := some ec.subject, body := some ec.body, meta := item.meta }] := by
    simp [prepare_emails_for_sending, hstatus, hemail, hsub, hbody, hpers]
  refine ⟨hprep, ?_⟩
  rw [hprep]
  unfold send_batch
  have hcond : ¬ (¬ dryRun = true ∧ ¬ connOk = true) := by
    rcases hrun with h | h <;> simp [h]
  rw [if_neg (by simp), if_neg hcond]
  simp only [sendLoop, truthyOptStr]
  rw [if_pos (by simp)]
  simp [initSendStats]

/-- A generated record shaped like the brain.py fallback output: non-empty
subject and body, a verification block without personalization fields. -/
def itemNoPers : PairResult :=
  { meta := { recipient_id := some "r1", event_id := some "e1", day := "1",
              status := "generated", reason := none, generated_at := some "2026-02-03T10:00:00",
              tone := some "enthusiastic", topic_overlap := some ["education"] },
    email := some { subject := "Grant Summit - Opportunity for Org", body := "Hi Asha," },
    verification := some { all_data_from_json := true, fallback_used := true,
                           personalization_fields := none },
    warnings := [] }

/-- Witness for C9 at a concrete input. -/
theorem missing_personalization_skipped_witness :
    prepare_emails_for_sending [itemNoPers]
      = [{ recipient_email := none, recipient_name := none,
           subject := some "Grant Summit - Opportunity for Org", body := some "Hi Asha,",
           meta := itemNoPers.meta }]
    ∧ send_batch true true (fun _ => true) initSendStats
        (prepare_emails_for_sending [itemNoPers])
      = { attempted := 1, sent := 0, failed := 0, skipped := 1 } :=
  missing_personalization_skipped itemNoPers
    { subject := "Grant Summit - Opportunity for Org", body := "Hi Asha," }
    true true (fun _ => true) rfl rfl (by decide) (by decide) rfl (Or.inl rfl)
